import Mathlib

set_option maxRecDepth 40000

namespace RFPlayer

/- ---------------------------------------------------------------------
Python runtime model: values, dicts, errors and the string builtins used
by custom_components/rfplayer.  All string operations are modelled over
the character list of the string so that every definition evaluates
inside the kernel.
--------------------------------------------------------------------- -/

/-- JSON-like runtime values of the Python code: None, strings, integers,
lists and dicts.  Lists and dicts are encoded as constructor chains
(arrCons / objCons) so that the type is a plain inductive; dict chains
keep the Python insertion order. -/
inductive Json where
  | null : Json
  | str : String → Json
  | num : Int → Json
  | arrNil : Json
  | arrCons : Json → Json → Json
  | objNil : Json
  | objCons : String → Json → Json → Json
deriving DecidableEq

/-- Build a dict value from an association list. -/
def Json.obj : List (String × Json) → Json
  | [] => .objNil
  | (k, v) :: rest => .objCons k v (Json.obj rest)

/-- The association list of a dict value (the Python items()). -/
def Json.entries : Json → List (String × Json)
  | .objCons k v rest => (k, v) :: rest.entries
  | _ => []

/-- Whether the value is a dict. -/
def Json.isObjLike : Json → Bool
  | .objNil => true
  | .objCons _ _ _ => true
  | _ => false

/-- Python d.get(k) on a dict value. -/
def Json.lookupKey : Json → String → Option Json
  | .objCons k v rest, key => if k = key then some v else rest.lookupKey key
  | _, _ => none

/-- Python truthiness of a value, as used by filter(None, ...) and by if
tests on fetched values. -/
def pyTruthy : Json → Bool
  | .null => false
  | .str s => s != ""
  | .num n => n != 0
  | .arrNil => false
  | .arrCons _ _ => true
  | .objNil => false
  | .objCons _ _ _ => true

/-- Python str() of the values that occur in packets; container reprs are
not needed by any claim and are rendered as empty strings. -/
def pyStr : Json → String
  | .null => "None"
  | .str s => s
  | .num n => toString n
  | _ => ""

/-- A Python dict with string keys, as an insertion-ordered association
list: the shape of the packet dicts of rfpparser.py. -/
abbrev Packet := List (String × Json)

/-- Python runtime errors that the modelled code can raise. -/
inductive PyErr where
  | keyError (k : String)
  | indexError
  | nameError
  | typeError
  | attributeError
  | exn (msg : String)
deriving DecidableEq

instance [DecidableEq ε] [DecidableEq α] : DecidableEq (Except ε α) := fun a b =>
  match a, b with
  | .ok x, .ok y =>
    if h : x = y then isTrue (congrArg Except.ok h) else isFalse (fun he => h (Except.ok.inj he))
  | .error x, .error y =>
    if h : x = y then isTrue (congrArg Except.error h) else isFalse (fun he => h (Except.error.inj he))
  | .ok _, .error _ => isFalse (fun he => Except.noConfusion he)
  | .error _, .ok _ => isFalse (fun he => Except.noConfusion he)

/-- Setting d[k] = v on a Python dict: an existing key keeps its position
and gets the new value, a new key is appended. -/
def dictInsert [BEq κ] (d : List (κ × α)) (k : κ) (v : α) : List (κ × α) :=
  if d.any (fun p => p.1 == k) then
    d.map (fun p => if p.1 == k then (k, v) else p)
  else
    d ++ [(k, v)]

/-- Evaluation of a Python dict literal: entries are inserted left to
right, so a duplicated key keeps its first position with its last value. -/
def pyDictLit [BEq κ] (ps : List (κ × α)) : List (κ × α) :=
  ps.foldl (fun d p => dictInsert d p.1 p.2) []

/-- Python sep.join(parts). -/
def pyJoin (sep : String) : List String → String
  | [] => ""
  | [x] => x
  | x :: xs => x ++ sep ++ pyJoin sep xs

/-- Split a character list at every occurrence of the separator, keeping
empty chunks, like the Python str.split with an explicit separator. -/
def splitChar (sep : Char) : List Char → List (List Char)
  | [] => [[]]
  | c :: cs =>
    match splitChar sep cs with
    | [] => [[]]
    | grp :: rest => if c = sep then [] :: grp :: rest else (c :: grp) :: rest

/-- Python s.split(sep) for a one-character separator. -/
def pySplit (sep : Char) (s : String) : List String :=
  (splitChar sep s.data).map String.mk

/-- Left-to-right non-overlapping replacement of a pattern, on character
lists, with the list length as structural fuel; the patterns used by the
code are never empty. -/
def replaceFuel (pat rep : List Char) : Nat → List Char → List Char
  | 0, l => l
  | _ + 1, [] => []
  | fuel + 1, c :: cs =>
    if pat.isPrefixOf (c :: cs) then rep ++ replaceFuel pat rep fuel ((c :: cs).drop pat.length)
    else c :: replaceFuel pat rep fuel cs

/-- Python s.replace(pat, rep): every non-overlapping occurrence is
replaced, scanning left to right. -/
def pyReplace (s pat rep : String) : String :=
  String.mk (replaceFuel pat.data rep.data s.data.length s.data)

/-- Python s.startswith(pre). -/
def pyStartsWith (s pre : String) : Bool := pre.data.isPrefixOf s.data

/-- Python s.lower(). -/
def pyLower (s : String) : String := String.mk (s.data.map Char.toLower)

/-- Python s.upper(). -/
def pyUpper (s : String) : String := String.mk (s.data.map Char.toUpper)

/-- Python s[:n]. -/
def pyTake (s : String) (n : Nat) : String := String.mk (s.data.take n)

/-- Code point comparison of character lists, the Python string order. -/
def strLtChars : List Char → List Char → Bool
  | [], [] => false
  | [], _ :: _ => true
  | _ :: _, [] => false
  | a :: as, b :: bs =>
    if a.toNat < b.toNat then true
    else if b.toNat < a.toNat then false
    else strLtChars as bs

/-- Python string less-than. -/
def pyStrLt (a b : String) : Bool := strLtChars a.data b.data

/- ---------------------------------------------------------------------
rfpparser.py: tables and identity codec.
--------------------------------------------------------------------- -/

/-- rfpparser.py line 13: PACKET_ID_SEP. -/
def PACKET_ID_SEP : String := "_"

/-- rfpparser.py lines 15-68: the PACKET_FIELDS dict literal, entry by
entry in source order; the literal repeats the keys sta and mod, which
Python resolves to the last value at the first position. -/
def PACKET_FIELDS_ENTRIES : List (String × String) :=
  [("batl", "battery_level"),
   ("batv", "battery"),
   ("cmd", "command"),
   ("dtc", "detector"),
   ("sta", "status"),
   ("sen", "sensor"),
   ("cov", "cover"),
   ("swi", "switch"),
   ("temperature", "temperature"),
   ("hygrometry", "hygrometry"),
   ("prs", "pressure"),
   ("alm", "alarm"),
   ("tmr", "tamper"),
   ("bt1", "button1"),
   ("bt2", "button2"),
   ("bt3", "button3"),
   ("bt4", "button4"),
   ("btn", "button"),
   ("spd", "speed"),
   ("dir", "direction"),
   ("uv", "uv"),
   ("nrj", "energy"),
   ("pow", "Power"),
   ("P1", "P1"),
   ("P2", "P2"),
   ("P3", "P3"),
   ("TRN", "TotalRain"),
   ("Rai", "Rain"),
   ("fnc", "functionMeaning"),
   ("sta", "stateMeaning"),
   ("mod", "modeMeaning"),
   ("d0", "d0"),
   ("d1", "d1"),
   ("d2", "d2"),
   ("d3", "d3"),
   ("typ", "subType"),
   ("dbg", "debug"),
   ("mod", "model"),
   ("info", "info"),
   ("type", "infoMeaning"),
   ("confort", "99"),
   ("eco", "98"),
   ("HG", "97"),
   ("ON", "01"),
   ("OFF", "02"),
   ("dim", "dim"),
   ("hc1", "cnt1"),
   ("hp2", "cnt2")]

/-- The PACKET_FIELDS dict after Python dict literal evaluation. -/
def PACKET_FIELDS : List (String × String) := pyDictLit PACKET_FIELDS_ENTRIES

/-- Comparison used by sorted(..., key=lambda x: (x[1], x[0]),
reverse=True): a keeps its place before b iff the sort key of a is not
smaller than the sort key of b. -/
def fieldKeyGE (a b : String × String) : Bool :=
  pyStrLt b.2 a.2 || (a.2 == b.2 && (pyStrLt b.1 a.1 || a.1 == b.1))

/-- Stable insertion into a descending-sorted list; an equal key keeps the
existing element first. -/
def insertDesc (x : String × String) : List (String × String) → List (String × String)
  | [] => [x]
  | y :: ys => if fieldKeyGE y x then y :: insertDesc x ys else x :: y :: ys

/-- Stable descending sort, modelling the Python builtin sorted with
reverse=True. -/
def sortDesc (l : List (String × String)) : List (String × String) :=
  l.foldl (fun acc x => insertDesc x acc) []

/-- rfpparser.py lines 256-261: the reversed field table built inside
packet_events, mapping full field names back to their abbreviations. -/
def field_abbrev : List (String × String) :=
  pyDictLit ((sortDesc PACKET_FIELDS).map (fun kv => (kv.2, kv.1)))

/-- The type check of the Python str.join: every joined item must already
be a string, otherwise join raises TypeError; str() is never applied. -/
def strItems : List Json → Except PyErr (List String)
  | [] => .ok []
  | .str s :: rest => (strItems rest).map (fun ss => s :: ss)
  | _ :: _ => .error .typeError

/-- rfpparser.py lines 205-217: serialize_packet_id.  filter(None, ...)
keeps only the present truthy values; the join raises TypeError when a
kept value is not a string. -/
def serialize_packet_id (packet : Packet) : Except PyErr String :=
  (strItems
      ((([packet.lookup "protocol", packet.lookup "id", packet.lookup "switch"]).filterMap
        id).filter pyTruthy)).map
    (pyJoin PACKET_ID_SEP)

/-- rfpparser.py lines 220-249: deserialize_packet_id.  A subscript that is
out of range raises IndexError. -/
def deserialize_packet_id (packet_id : String) : Except PyErr Packet :=
  if packet_id = "rfplayer" then
    .ok [("protocol", .str "unknown")]
  else if packet_id = "ZIA" then
    .ok [("protocol", .str "ZIA++")]
  else if pyStartsWith (pyLower packet_id) "chacon" then
    match pySplit '_' packet_id with
    | _ :: a :: _ => .ok [("protocol", .str "chacon"), ("address", .str a)]
    | _ => .error .indexError
  else if pyStartsWith packet_id "dooya_v4" then
    let rem := (pySplit '_' (pyReplace packet_id "dooya_v4_" "")).headD ""
    .ok [("protocol", .str "dooya_v4"), ("id", .str rem), ("switch", .str rem)]
  else
    match pySplit '_' packet_id with
    | p0 :: p1 :: rest =>
      .ok ([("protocol", .str p0), ("id", .str p1)] ++
        (match rest with
         | [] => []
         | s2 :: _ => [("switch", .str s2)]))
    | _ => .error .indexError

/-- rfpparser.py lines 194-202: encode_packet. -/
def encode_packet (packet : Packet) : Except PyErr String :=
  match packet.lookup "command", packet.lookup "protocol" with
  | some c, some p =>
    let command := pyUpper (pyStr c)
    let protocol := pyUpper (pyStr p)
    match packet.lookup "id" with
    | some idv => .ok ("ZIA++" ++ command ++ " " ++ protocol ++ " ID " ++ pyStr idv)
    | none =>
      match packet.lookup "address" with
      | some av => .ok ("ZIA++" ++ command ++ " " ++ protocol ++ " " ++ pyStr av)
      | none => .error (.exn "No ID or Address found")
  | none, _ => .error (.keyError "command")
  | _, none => .error (.keyError "protocol")

/- ---------------------------------------------------------------------
rfpparser.py: decode_packet.
--------------------------------------------------------------------- -/

/-- Packet source names, rfpparser.py lines 126-132. -/
inductive PacketHeader where
  | master
  | echo
  | gateway
deriving DecidableEq

/-- The enum values of PacketHeader. -/
def PacketHeader.value : PacketHeader → String
  | .master => "10"
  | .echo => "11"
  | .gateway => "20"

/-- The enum member names of PacketHeader. -/
def PacketHeader.name : PacketHeader → String
  | .master => "master"
  | .echo => "echo"
  | .gateway => "gateway"

/-- External collaborators of decode_packet: the json module and the
globals() table holding the per-protocol decoder functions.  The decoders
come from protocols.py, which is star imported and not part of the given
sources, so they are black box functions of the data dict, the message and
the node name, and may themselves raise. -/
structure DecodeEnv where
  jsonLoads : String → Except PyErr Json
  globals : String → Option (Packet → Json → String → Except PyErr Packet)

/-- Resolve globals()[protocol + "_decode"] by the underscore join of the
source and call the decoder; a missing name raises KeyError. -/
def callDecoder (env : DecodeEnv) (protocol : String) (data : Packet) (message : Json) :
    Except PyErr Packet :=
  match env.globals (pyJoin "_" [protocol, "decode"]) with
  | none => .error (.keyError (pyJoin "_" [protocol, "decode"]))
  | some d => d data message PacketHeader.gateway.name

/-- The loop over the top level keys of a ZIA-- JSON message, rfpparser.py
lines 169-170: each key is decoded in order and its packet appended; an
exception aborts the loop and the whole call. -/
def decodeKeys (env : DecodeEnv) (data : Packet) (message : Json) :
    List (String × Json) → Except PyErr (List Packet)
  | [] => .ok []
  | (protocol, _) :: rest =>
    match callDecoder env protocol data message with
    | .error e => .error e
    | .ok p =>
      match decodeKeys env data message rest with
      | .error e => .error e
      | .ok ps => .ok (p :: ps)

/-- Python subscript m[k]: KeyError for a missing key on a dict, TypeError
on a value that is not a dict. -/
def jGetItem (j : Json) (k : String) : Except PyErr Json :=
  if j.isObjLike then
    match j.lookupKey k with
    | some v => .ok v
    | none => .error (.keyError k)
  else
    .error .typeError

/-- rfpparser.py lines 139-192: decode_packet.  The result carries the
packets_found list and the list of error level log messages (debug logs
are not tracked); an uncaught Python exception is an error result.  A
parsed ZIA-- JSON message that is not a dict is not reached by any claim
and is modelled as TypeError. -/
def decode_packet (env : DecodeEnv) (packet : String) : Except PyErr (List Packet × List String) :=
  let data : Packet := [("node", .str PacketHeader.gateway.name)]
  if pyTake packet 5 = "ZIA--" then
    let frame := pyReplace packet "ZIA--" ""
    if pyStartsWith frame "Welcome" then
      (callDecoder env "WELCOME" data (.str frame)).map (fun p => ([p], []))
    else if pyStartsWith frame "ZIA--" then
      (callDecoder env "Status" data (.str frame)).map (fun p => ([p], []))
    else if pyStartsWith frame "RECEIVED" then
      (callDecoder env "RECEIVED" data (.str frame)).map (fun p => ([p], []))
    else if pyStartsWith frame "REPEATED" then
      (callDecoder env "REPEATED" data (.str frame)).map (fun p => ([p], []))
    else
      match env.jsonLoads frame with
      | .error e => .error e
      | .ok message =>
        if message.isObjLike then
          (decodeKeys env data message message.entries).map (fun ps => (ps, []))
        else
          .error .typeError
  else if pyTake packet 5 = "ZIA33" then
    match env.jsonLoads (pyReplace packet "ZIA33" "") with
    | .error e => .error e
    | .ok parsed =>
      match jGetItem parsed "frame" with
      | .error e => .error e
      | .ok message =>
        match jGetItem message "header" with
        | .error e => .error e
        | .ok header =>
          match jGetItem header "protocolMeaning" with
          | .error e => .error e
          | .ok protoVal =>
            let data2 := dictInsert data "protocol" protoVal
            match (match protoVal with
                   | .str protoName => callDecoder env protoName data2 message
                   | _ => .error .typeError : Except PyErr Packet) with
            | .ok p => .ok ([p], [])
            | .error _ => .ok ([], ["Protocol not implemented"])
  else
    .ok ([], [])

/- ---------------------------------------------------------------------
rfpparser.py: packet_events.
--------------------------------------------------------------------- -/

/-- rfpparser.py lines 275-291: the loop yielding one event per mapped
top level field.  The local variable protocol is only ever assigned when
the packet has a protocol entry, so the first yield of a packet without
one raises NameError. -/
def yieldTop (packet : Packet) (packet_id : String) (platform : Json) (protocolOpt : Option Json)
    (forceid : Json) : List (String × Json) → Except PyErr (List Packet)
  | [] => .ok []
  | (sensor, value) :: rest =>
    match protocolOpt with
    | none => .error .nameError
    | some protocol =>
      let unit := (packet.lookup (sensor ++ "_unit")).getD .null
      let ab := (field_abbrev.lookup sensor).getD ""
      let idv :=
        if forceid = Json.null then .str (packet_id ++ ab ++ PACKET_ID_SEP ++ ab) else forceid
      let ev := pyDictLit
        [("id", idv), (sensor, value), ("value", value), ("unit", unit),
         ("platform", platform), ("protocol", protocol)]
      (yieldTop packet packet_id platform protocolOpt forceid rest).map (fun evs => ev :: evs)

/-- rfpparser.py lines 294-310: the loop yielding one event per entry of
the elements sub-dict; a computed but unused unit lookup is kept for
fidelity.  Element values must be dicts (AttributeError otherwise) and the
identity concatenation needs a string protocol (TypeError otherwise). -/
def yieldElems (packet : Packet) (packet_id : String) (forceid : Json) :
    List (String × Json) → Except PyErr (List Packet)
  | [] => .ok []
  | (sensor, value) :: rest =>
    if value.isObjLike then
      let _unitUnused := (packet.lookup ("sensor" ++ "_unit")).getD .null
      match (value.lookupKey "protocol").getD (.str "unknown") with
      | .str protoStr =>
        let idv :=
          if forceid = Json.null then .str (packet_id ++ protoStr ++ PACKET_ID_SEP ++ sensor)
          else forceid
        let ev := pyDictLit
          [("id", idv), ("sensor", .str "sensor"),
           ("value", (value.lookupKey "sensor").getD (.str "unknown")),
           ("unit", (value.lookupKey "sensor_unit").getD (.str "")),
           ("platform", (value.lookupKey "platform").getD (.str "unknown")),
           ("protocol", (value.lookupKey "protocol").getD (.str "unknown"))]
        (yieldElems packet packet_id forceid rest).map (fun evs => ev :: evs)
      | _ => .error .typeError
    else
      .error .attributeError

/-- rfpparser.py lines 252-310: packet_events, with the generator fully
consumed into a list.  The serialize call at line 263 runs on the first
generator step, before any yield, so its TypeError on a non-string
identity value precedes every other outcome.  The events dict keeps only
the packet fields whose names are keys of the reversed field table, that
is full field names. -/
def packet_events (packet : Packet) : Except PyErr (List Packet) :=
  match serialize_packet_id packet with
  | .error e => .error e
  | .ok packet_id =>
  let events := packet.filter (fun fv => (field_abbrev.lookup fv.1).isSome)
  let platform := (packet.lookup "platform").getD .null
  let protocolOpt := packet.lookup "protocol"
  let forceid := (packet.lookup "forceid").getD .null
  match yieldTop packet packet_id platform protocolOpt forceid events with
  | .error e => .error e
  | .ok top =>
    let elemsVal := (packet.lookup "elements").getD .null
    match (if pyTruthy elemsVal then
            if elemsVal.isObjLike then
              yieldElems packet packet_id forceid elemsVal.entries
            else
              .error .attributeError
          else
            .ok [] : Except PyErr (List Packet)) with
    | .error e => .error e
    | .ok elems => .ok (top ++ elems)

/- ---------------------------------------------------------------------
custom_components/rfplayer/__init__.py: the event router and the
reconnect path.
--------------------------------------------------------------------- -/

/-- Modelled from the spec: const.py is not among the given sources; the
event key constants are taken from the spec, which routes on the platform
field and looks identities up by the id field. -/
def EVENT_KEY_PLATFORM : String := "platform"

/-- Modelled from the spec: const.py is not among the given sources; the
identity key of an event is its id field. -/
def EVENT_KEY_ID : String := "id"

/-- init .py lines 77-82: identify_event_type. -/
def identify_event_type (event : Packet) : Json :=
  match event.lookup EVENT_KEY_PLATFORM with
  | some v => v
  | none => .str "unknown"

/-- A value registered in DATA_DEVICE_REGISTER for an event type: the
inspect.isfunction check distinguishes a plain function from any other
object (the connect path initially stores empty dicts there). -/
inductive RegVal where
  | fn (name : String)
  | nonFn (desc : String)
deriving DecidableEq

/-- The parts of hass.data[DOMAIN] and of the config entry that
event_callback reads and writes: the per-type identity lookup tables, the
per-type device register, and the persisted device descriptors of the
config entry. -/
structure RouterState where
  entityLookup : List (Json × List (Json × Json))
  deviceRegister : List (Json × RegVal)
  configDevices : List (Json × Json)
deriving DecidableEq

/-- The externally visible action taken by event_callback on one event. -/
inductive RouteAction where
  | dropUnhandled (t : Json)
  | forward (consumer : Json) (event : Packet)
  | invokeFactory (factory : String) (event : Packet)
  | dropNotFunction (t : Json)
  | dropAutoAddDisabled (t : Json)
deriving DecidableEq

/-- init .py lines 235-272 with lines 274-280: event_callback together
with _add_device_to_base_config.  The entity lookup tables are
defaultdicts of lists, so a missing identity reads as an empty list,
which is falsy; registering a new device stores the event dict itself
under the identity and persists it into the config entry devices. -/
def event_callback (st : RouterState) (event : Packet) : RouteAction × RouterState :=
  let event_type := identify_event_type event
  match st.entityLookup.lookup event_type with
  | none => (.dropUnhandled event_type, st)
  | some typeMap =>
    let event_id := (event.lookup EVENT_KEY_ID).getD .null
    let entity := (typeMap.lookup event_id).getD .arrNil
    if pyTruthy entity then
      (.forward entity event, st)
    else
      match st.deviceRegister.lookup event_type with
      | some rv =>
        let st1 : RouterState :=
          { st with
            entityLookup :=
              dictInsert st.entityLookup event_type
                (dictInsert typeMap event_id (Json.obj event)),
            configDevices := dictInsert st.configDevices event_id (Json.obj event) }
        match rv with
        | .fn f => (.invokeFactory f event, st1)
        | .nonFn _ => (.dropNotFunction event_type, st1)
      | none => (.dropAutoAddDisabled event_type, st)

/-- The observable effects of the connection management callbacks. -/
inductive ConnEffect where
  | resetProtocol
  | broadcastAvailability (b : Bool)
  | logError
  | logWarning
  | callLater (delay : Nat) (cb : String)
  | createTask (t : String)
deriving DecidableEq

/-- init .py lines 282-293: the reconnect callback, invoked on an
externally signaled disconnect: it unconditionally broadcasts
availability false and, unless Home Assistant is stopping, immediately
creates a new connect task.  It keeps no state and performs no
deduplication of repeated invocations. -/
def reconnect (stopping : Bool) : List ConnEffect :=
  [.resetProtocol, .broadcastAvailability false] ++
    (if stopping then [] else [.logWarning, .createTask "connect"])

/-- The configuration entry fields read by the reconnect path. -/
structure ConnConfig where
  reconnect_interval : Nat
deriving DecidableEq

/-- init .py lines 348-365: the except branch of connect() for
SerialException, OSError and TimeoutError: one exception log, one
availability false broadcast, and one reconnect scheduled after the fixed
configured delay. -/
def connect_open_failure (cfg : ConnConfig) : List ConnEffect :=
  [.logError, .broadcastAvailability false, .callLater cfg.reconnect_interval "reconnect"]

/-- Count of availability false broadcasts in an effect trace. -/
def countAvailFalse (l : List ConnEffect) : Nat :=
  (l.filter (fun e => e == .broadcastAvailability false)).length

/-- Count of reconnection attempts in an effect trace: delayed schedules
of the reconnect callback plus immediately created connect tasks. -/
def countAttempts (l : List ConnEffect) : Nat :=
  (l.filter (fun e =>
    match e with
    | .callLater _ _ => true
    | .createTask _ => true
    | _ => false)).length

/- ---------------------------------------------------------------------
Helper lemmas.
--------------------------------------------------------------------- -/

lemma splitChar_ne_nil (sep : Char) (l : List Char) : splitChar sep l ≠ [] := by
  cases l with
  | nil => simp [splitChar]
  | cons c cs =>
    simp only [splitChar]
    cases h : splitChar sep cs with
    | nil => simp
    | cons g t =>
      by_cases hc : c = sep <;> simp [hc]

lemma splitChar_sepFree (sep : Char) (l : List Char) (h : sep ∉ l) : splitChar sep l = [l] := by
  induction l with
  | nil => rfl
  | cons c cs ih =>
    have hc : c ≠ sep := fun he => h (he ▸ List.mem_cons_self c cs)
    have hcs : sep ∉ cs := fun hm => h (List.mem_cons_of_mem c hm)
    simp [splitChar, ih hcs, hc]

lemma splitChar_append (sep : Char) (a rest : List Char) (h : sep ∉ a) :
    splitChar sep (a ++ sep :: rest) = a :: splitChar sep rest := by
  induction a with
  | nil =>
    obtain ⟨g, t, hgt⟩ : ∃ g t, splitChar sep rest = g :: t := by
      cases hr : splitChar sep rest with
      | nil => exact absurd hr (splitChar_ne_nil sep rest)
      | cons g t => exact ⟨g, t, rfl⟩
    simp [splitChar, hgt]
  | cons c cs ih =>
    have hc : c ≠ sep := fun he => h (he ▸ List.mem_cons_self c cs)
    have hcs : sep ∉ cs := fun hm => h (List.mem_cons_of_mem c hm)
    simp only [List.cons_append, splitChar, List.append_eq]
    rw [ih hcs]
    simp [hc]

lemma string_mk_data (s : String) : String.mk s.data = s := rfl

lemma sep_data : ("_" : String).data = ['_'] := rfl

lemma pySplit_join2 (x y : String) (hx : '_' ∉ x.data) (hy : '_' ∉ y.data) :
    pySplit '_' (x ++ "_" ++ y) = [x, y] := by
  have hd : (x ++ "_" ++ y).data = x.data ++ '_' :: y.data := by
    simp [String.data_append, sep_data]
  simp [pySplit, hd, splitChar_append _ _ _ hx, splitChar_sepFree _ _ hy, string_mk_data]

lemma pySplit_join3 (x y z : String) (hx : '_' ∉ x.data) (hy : '_' ∉ y.data)
    (hz : '_' ∉ z.data) : pySplit '_' (x ++ "_" ++ (y ++ "_" ++ z)) = [x, y, z] := by
  have hd : (x ++ "_" ++ (y ++ "_" ++ z)).data = x.data ++ '_' :: (y.data ++ '_' :: z.data) := by
    simp [String.data_append, sep_data]
  simp [pySplit, hd, splitChar_append _ _ _ hx, splitChar_append _ _ _ hy,
    splitChar_sepFree _ _ hz, string_mk_data]

/-- An identity as in claim C1: a protocol, an id and an optional switch. -/
def mkIdentity (pr i : String) (sw : Option String) : Packet :=
  [("protocol", .str pr), ("id", .str i)] ++
    (match sw with
     | none => []
     | some s => [("switch", .str s)])

lemma serialize_mkIdentity_none (pr i : String) (hpr : pr ≠ "") (hi : i ≠ "") :
    serialize_packet_id (mkIdentity pr i none) = .ok (pr ++ "_" ++ i) := by
  simp [serialize_packet_id, mkIdentity, List.lookup, pyTruthy, strItems, Except.map, pyJoin,
    PACKET_ID_SEP, hpr, hi]

lemma serialize_mkIdentity_some (pr i s : String) (hpr : pr ≠ "") (hi : i ≠ "") (hs : s ≠ "") :
    serialize_packet_id (mkIdentity pr i (some s)) = .ok (pr ++ "_" ++ (i ++ "_" ++ s)) := by
  simp [serialize_packet_id, mkIdentity, List.lookup, pyTruthy, strItems, Except.map, pyJoin,
    PACKET_ID_SEP, hpr, hi, hs]

/- ---------------------------------------------------------------------
Claim theorems.
--------------------------------------------------------------------- -/

/-- Claim C1, counterexample: the identity with protocol a_b and id c hits
no documented legacy special case, its serialization succeeds with the key
a_b_c, yet deserializing that key yields protocol a, id b, switch c, not
the original identity. -/
theorem roundtrip_fails_when_protocol_contains_separator :
    (serialize_packet_id [("protocol", .str "a_b"), ("id", .str "c")]).bind
        deserialize_packet_id =
      .ok [("protocol", .str "a"), ("id", .str "b"), ("switch", .str "c")] ∧
    (serialize_packet_id [("protocol", .str "a_b"), ("id", .str "c")]).bind
        deserialize_packet_id ≠
      .ok [("protocol", .str "a_b"), ("id", .str "c")] := by
  decide

/-- Claim C1 (amended): for every identity whose protocol, id and optional
switch are nonempty strings free of the separator, and whose serialized
key is not the literal rfplayer or ZIA, does not start with chacon after
lowercasing, and does not start with dooya_v4, serialization succeeds and
deserializing its result returns exactly the original identity. -/
theorem deserialize_serialize_roundtrip (pr i : String) (sw : Option String)
    (hpr : pr ≠ "") (hprSep : '_' ∉ pr.data)
    (hi : i ≠ "") (hiSep : '_' ∉ i.data)
    (hsw : ∀ s, sw = some s → s ≠ "" ∧ '_' ∉ s.data)
    (hk1 : serialize_packet_id (mkIdentity pr i sw) ≠ .ok "rfplayer")
    (hk2 : serialize_packet_id (mkIdentity pr i sw) ≠ .ok "ZIA")
    (hk3 : (serialize_packet_id (mkIdentity pr i sw)).map
      (fun k => pyStartsWith (pyLower k) "chacon") = .ok false)
    (hk4 : (serialize_packet_id (mkIdentity pr i sw)).map
      (fun k => pyStartsWith k "dooya_v4") = .ok false) :
    (serialize_packet_id (mkIdentity pr i sw)).bind deserialize_packet_id =
      .ok (mkIdentity pr i sw) := by
  cases sw with
  | none =>
    rw [serialize_mkIdentity_none pr i hpr hi] at hk1 hk2 hk3 hk4 ⊢
    simp only [Except.map] at hk3 hk4
    have hk1a : pr ++ "_" ++ i ≠ "rfplayer" := fun h => hk1 (by rw [h])
    have hk2a : pr ++ "_" ++ i ≠ "ZIA" := fun h => hk2 (by rw [h])
    have hk3a := Except.ok.inj hk3
    have hk4a := Except.ok.inj hk4
    simp [Except.bind, deserialize_packet_id, hk1a, hk2a, hk3a, hk4a,
      pySplit_join2 pr i hprSep hiSep, mkIdentity]
  | some s =>
    obtain ⟨hs, hsSep⟩ := hsw s rfl
    rw [serialize_mkIdentity_some pr i s hpr hi hs] at hk1 hk2 hk3 hk4 ⊢
    simp only [Except.map] at hk3 hk4
    have hk1a : pr ++ "_" ++ (i ++ "_" ++ s) ≠ "rfplayer" := fun h => hk1 (by rw [h])
    have hk2a : pr ++ "_" ++ (i ++ "_" ++ s) ≠ "ZIA" := fun h => hk2 (by rw [h])
    have hk3a := Except.ok.inj hk3
    have hk4a := Except.ok.inj hk4
    simp [Except.bind, deserialize_packet_id, hk1a, hk2a, hk3a, hk4a,
      pySplit_join3 pr i s hprSep hiSep hsSep, mkIdentity]

/-- Witness for the C1 theorem at the identity (p, 7, s). -/
theorem deserialize_serialize_roundtrip_witness :
    (serialize_packet_id (mkIdentity "p" "7" (some "s"))).bind deserialize_packet_id =
      .ok (mkIdentity "p" "7" (some "s")) :=
  deserialize_serialize_roundtrip "p" "7" (some "s") (by decide) (by decide) (by decide)
    (by decide) (by intro s hs; cases hs; exact ⟨by decide, by decide⟩) (by decide) (by decide)
    (by decide) (by decide)

/-- Claim C7, counterexample: on the key chacon_12_34 the code returns the
second separator-delimited segment 12 as the address, not the entire
remainder 12_34 after the first separator. -/
theorem deserialize_chacon_keeps_second_segment_only :
    deserialize_packet_id "chacon_12_34" =
      .ok [("protocol", .str "chacon"), ("address", .str "12")] ∧
    deserialize_packet_id "chacon_12_34" ≠
      .ok [("protocol", .str "chacon"), ("address", .str "12_34")] := by
  decide

/-- Claim C7 (amended): deserialize_packet_id applies its cases in order:
the literal rfplayer maps to protocol unknown; the literal ZIA maps to
protocol ZIA++; a key starting with chacon after lowercasing maps to
protocol chacon with address equal to the second separator-delimited
segment; a key starting with dooya_v4 maps to protocol dooya_v4 with id
and switch both equal to the first separator-delimited segment of the key
after deleting every occurrence of dooya_v4 followed by the separator;
otherwise the key is split on the separator with the first segment as
protocol, the second as id and an optional third as switch. -/
theorem deserialize_packet_id_cases :
    deserialize_packet_id "rfplayer" = .ok [("protocol", .str "unknown")] ∧
    deserialize_packet_id "ZIA" = .ok [("protocol", .str "ZIA++")] ∧
    (∀ key k0 a rest, key ≠ "rfplayer" → key ≠ "ZIA" →
      pyStartsWith (pyLower key) "chacon" = true →
      pySplit '_' key = k0 :: a :: rest →
      deserialize_packet_id key = .ok [("protocol", .str "chacon"), ("address", .str a)]) ∧
    (∀ key, key ≠ "rfplayer" → key ≠ "ZIA" →
      pyStartsWith (pyLower key) "chacon" = false →
      pyStartsWith key "dooya_v4" = true →
      deserialize_packet_id key = .ok
        [("protocol", .str "dooya_v4"),
         ("id", .str ((pySplit '_' (pyReplace key "dooya_v4_" "")).headD "")),
         ("switch", .str ((pySplit '_' (pyReplace key "dooya_v4_" "")).headD ""))]) ∧
    (∀ key p0 p1 rest, key ≠ "rfplayer" → key ≠ "ZIA" →
      pyStartsWith (pyLower key) "chacon" = false →
      pyStartsWith key "dooya_v4" = false →
      pySplit '_' key = p0 :: p1 :: rest →
      deserialize_packet_id key = .ok
        ([("protocol", .str p0), ("id", .str p1)] ++
          (match rest with
           | [] => []
           | s2 :: _ => [("switch", .str s2)]))) := by
  refine ⟨by decide, by decide, ?_, ?_, ?_⟩
  · intro key k0 a rest h1 h2 h3 hsplit
    simp [deserialize_packet_id, h1, h2, h3, hsplit]
  · intro key h1 h2 h3 h4
    simp [deserialize_packet_id, h1, h2, h3, h4]
  · intro key p0 p1 rest h1 h2 h3 h4 hsplit
    simp [deserialize_packet_id, h1, h2, h3, h4, hsplit]

/-- Witness for the C7 theorem at the keys chacon_7, dooya_v4_8_9 and
p_i_s. -/
theorem deserialize_packet_id_cases_witness :
    deserialize_packet_id "chacon_7" =
      .ok [("protocol", .str "chacon"), ("address", .str "7")] ∧
    deserialize_packet_id "dooya_v4_8_9" = .ok
      [("protocol", .str "dooya_v4"),
       ("id", .str ((pySplit '_' (pyReplace "dooya_v4_8_9" "dooya_v4_" "")).headD "")),
       ("switch", .str ((pySplit '_' (pyReplace "dooya_v4_8_9" "dooya_v4_" "")).headD ""))] ∧
    deserialize_packet_id "p_i_s" =
      .ok [("protocol", .str "p"), ("id", .str "i"), ("switch", .str "s")] :=
  ⟨deserialize_packet_id_cases.2.2.1 "chacon_7" "chacon" "7" [] (by decide) (by decide)
      (by decide) (by decide),
   deserialize_packet_id_cases.2.2.2.1 "dooya_v4_8_9" (by decide) (by decide) (by decide)
      (by decide),
   deserialize_packet_id_cases.2.2.2.2 "p_i_s" "p" "i" ["s"] (by decide) (by decide)
      (by decide) (by decide) (by decide)⟩

/-- Claim C5 (confirmed): encoding protocol X1, command on, id 42 gives
exactly ZIA++ON X1 ID 42; a packet with an address and no id encodes to
the prefixed command, protocol and address; a packet lacking both id and
address fails with an exception instead of returning a string. -/
theorem encode_packet_contract :
    encode_packet [("protocol", .str "X1"), ("command", .str "on"), ("id", .str "42")] =
      .ok "ZIA++ON X1 ID 42" ∧
    (∀ (packet : Packet) (c p a : Json),
      packet.lookup "command" = some c → packet.lookup "protocol" = some p →
      packet.lookup "id" = none → packet.lookup "address" = some a →
      encode_packet packet =
        .ok ("ZIA++" ++ pyUpper (pyStr c) ++ " " ++ pyUpper (pyStr p) ++ " " ++ pyStr a)) ∧
    (∀ (packet : Packet) (c p : Json),
      packet.lookup "command" = some c → packet.lookup "protocol" = some p →
      packet.lookup "id" = none → packet.lookup "address" = none →
      encode_packet packet = .error (.exn "No ID or Address found")) := by
  refine ⟨by decide, ?_, ?_⟩
  · intro packet c p a hc hp hid had
    simp [encode_packet, hc, hp, hid, had]
  · intro packet c p hc hp hid had
    simp [encode_packet, hc, hp, hid, had]

/-- Witness for the C5 theorem at an address packet and at a packet with
neither id nor address. -/
theorem encode_packet_contract_witness :
    encode_packet [("command", .str "on"), ("protocol", .str "X1"), ("address", .str "A1")] =
      .ok ("ZIA++" ++ pyUpper (pyStr (.str "on")) ++ " " ++ pyUpper (pyStr (.str "X1")) ++
        " " ++ pyStr (.str "A1")) ∧
    encode_packet [("command", .str "on"), ("protocol", .str "X1")] =
      .error (.exn "No ID or Address found") :=
  ⟨encode_packet_contract.2.1
      [("command", .str "on"), ("protocol", .str "X1"), ("address", .str "A1")]
      (.str "on") (.str "X1") (.str "A1") (by decide) (by decide) (by decide) (by decide),
   encode_packet_contract.2.2 [("command", .str "on"), ("protocol", .str "X1")]
      (.str "on") (.str "X1") (by decide) (by decide) (by decide) (by decide)⟩

/-- Claim C10 (confirmed): every input whose first five characters are
neither ZIA-- nor ZIA33, including strings shorter than five characters,
makes decode_packet return the empty packet list with no diagnostics and
without raising. -/
theorem decode_packet_unrecognized_header (env : DecodeEnv) (packet : String)
    (h1 : pyTake packet 5 ≠ "ZIA--") (h2 : pyTake packet 5 ≠ "ZIA33") :
    decode_packet env packet = .ok ([], []) := by
  simp [decode_packet, h1, h2]

/-- Witness for the C10 theorem at the empty string. -/
theorem decode_packet_unrecognized_header_witness :
    decode_packet ⟨fun _ => .error .typeError, fun _ => none⟩ "" = .ok ([], []) :=
  decode_packet_unrecognized_header _ "" (by decide) (by decide)

/-- Claim C2, counterexample: a packet with the abbreviated field sta set
to closed, protocol X and id Y yields no event at all, because the table
inside packet_events is keyed by full field names and the duplicated
literal key sta resolves to stateMeaning, so neither sta nor a detector
mapping applies. -/
theorem packet_events_sta_closed_yields_no_event :
    packet_events [("sta", .str "closed"), ("protocol", .str "X"), ("id", .str "Y")] =
      .ok [] := by
  decide

/-- Claim C2 (amended): a packet with field sta set to closed, protocol X
and id Y yields zero events; a packet carrying the full field name
stateMeaning set to closed instead yields exactly one event whose id is
X_Ysta_sta, the identity key directly followed by the abbreviated field
name, the separator and the abbreviated field name again, and whose value
is closed. -/
theorem packet_events_field_table_behaviour :
    packet_events [("sta", .str "closed"), ("protocol", .str "X"), ("id", .str "Y")] =
      .ok [] ∧
    packet_events [("stateMeaning", .str "closed"), ("protocol", .str "X"), ("id", .str "Y")] =
      .ok [[("id", .str "X_Ysta_sta"), ("stateMeaning", .str "closed"),
            ("value", .str "closed"), ("unit", .null), ("platform", .null),
            ("protocol", .str "X")]] := by
  exact ⟨by decide, by decide⟩

/-- Claim C6, counterexample: a packet carrying the mapped field detector
but no protocol entry makes packet_events raise NameError, because the
local variable protocol is never assigned before the first yield. -/
theorem packet_events_missing_protocol_raises :
    packet_events [("detector", .str "x")] = .error .nameError := by
  decide

/-- Claim C6 (amended): packet_events is not exception free.  A packet
whose identity serializes (every kept identity value is a string) and
that yields at least one top level event but lacks a protocol field
raises NameError from the unassigned local protocol; a packet whose
truthy identity values include a non-string raises TypeError from the
identity join before anything else.  When platform or unit are absent,
top level events carry None rather than unknown; element events default
absent protocol, platform and sensor values to unknown and absent units
to the empty string, and are produced without raising even when the
packet lacks protocol and platform. -/
theorem packet_events_defaults :
    (∀ (packet : Packet) (pid s : String) (v : Json) (rest : List (String × Json)),
      serialize_packet_id packet = .ok pid →
      packet.lookup "protocol" = none →
      packet.filter (fun fv => (field_abbrev.lookup fv.1).isSome) = (s, v) :: rest →
      packet_events packet = .error .nameError) ∧
    packet_events [("detector", .str "x"), ("switch", .num 5)] = .error .typeError ∧
    packet_events [("detector", .str "x"), ("protocol", .str "P")] =
      .ok [[("id", .str "Pdtc_dtc"), ("detector", .str "x"), ("value", .str "x"),
            ("unit", .null), ("platform", .null), ("protocol", .str "P")]] ∧
    packet_events [("elements", .objCons "k" .objNil .objNil)] =
      .ok [[("id", .str "unknown_k"), ("sensor", .str "sensor"), ("value", .str "unknown"),
            ("unit", .str ""), ("platform", .str "unknown"), ("protocol", .str "unknown")]] := by
  refine ⟨?_, by decide, by decide, by decide⟩
  intro packet pid s v rest hser hprot hfilter
  simp [packet_events, hser, hprot, hfilter, yieldTop]

/-- Witness for the C6 theorem at a packet with a mapped field, a
serializable identity and no protocol. -/
theorem packet_events_defaults_witness :
    packet_events [("detector", .str "y")] = .error .nameError :=
  packet_events_defaults.1 [("detector", .str "y")] "" "detector" (.str "y") []
    (by decide) (by decide) (by decide)

lemma json_obj_isObjLike (l : List (String × Json)) : (Json.obj l).isObjLike = true := by
  cases l with
  | nil => rfl
  | cons a as =>
    cases a
    rfl

lemma json_obj_entries (l : List (String × Json)) : (Json.obj l).entries = l := by
  induction l with
  | nil => rfl
  | cons a as ih =>
    cases a
    simp [Json.obj, Json.entries, ih]

lemma decodeKeys_missing_decoder (env : DecodeEnv) (data : Packet) (msg : Json)
    (pre : List (String × Json)) (k : String) (v : Json) (post : List (String × Json))
    (hpre : ∀ kv ∈ pre, ∃ p, callDecoder env kv.1 data msg = .ok p)
    (hk : env.globals (pyJoin "_" [k, "decode"]) = none) :
    decodeKeys env data msg (pre ++ (k, v) :: post) =
      .error (.keyError (pyJoin "_" [k, "decode"])) := by
  induction pre with
  | nil => simp [decodeKeys, callDecoder, hk]
  | cons a as ih =>
    obtain ⟨p, hp⟩ := hpre a (List.mem_cons_self a as)
    have ih2 := ih (fun kv hkv => hpre kv (List.mem_cons_of_mem a hkv))
    obtain ⟨a1, a2⟩ := a
    simp only at hp
    simp only [List.cons_append, decodeKeys, hp, List.append_eq, ih2]

/-- Claim C3, counterexample: a ZIA-- line parsing to a JSON object whose
first key names an unknown protocol makes decode_packet raise KeyError
from the dynamic decoder lookup, so the remaining sibling key with a
resolvable decoder yields nothing and the call aborts. -/
theorem zia_batch_unknown_protocol_raises :
    decode_packet
      ⟨fun _ => .ok (.objCons "B" .null (.objCons "A" .null .objNil)),
       fun n => if n = "A_decode" then some (fun d _ _ => .ok d) else none⟩ "ZIA--x" =
      .error (.keyError "B_decode") := by
  decide

/-- Claim C3 (amended): in the ZIA-- JSON branch an unknown protocol among
the top level keys raises an uncaught KeyError from the dynamic decoder
lookup, aborting the decoding of every remaining sibling key: the call
errors even when all keys before the unknown one decode successfully;
only the ZIA33 branch isolates decode failures. -/
theorem zia_json_unknown_protocol_aborts (env : DecodeEnv) (packet : String)
    (pre : List (String × Json)) (k : String) (v : Json) (post : List (String × Json))
    (h5 : pyTake packet 5 = "ZIA--")
    (hw : pyStartsWith (pyReplace packet "ZIA--" "") "Welcome" = false)
    (hz : pyStartsWith (pyReplace packet "ZIA--" "") "ZIA--" = false)
    (hrec : pyStartsWith (pyReplace packet "ZIA--" "") "RECEIVED" = false)
    (hrep : pyStartsWith (pyReplace packet "ZIA--" "") "REPEATED" = false)
    (hjson : env.jsonLoads (pyReplace packet "ZIA--" "") =
      .ok (Json.obj (pre ++ (k, v) :: post)))
    (hpre : ∀ kv ∈ pre, ∃ p,
      callDecoder env kv.1 [("node", .str "gateway")] (Json.obj (pre ++ (k, v) :: post)) = .ok p)
    (hk : env.globals (pyJoin "_" [k, "decode"]) = none) :
    decode_packet env packet = .error (.keyError (pyJoin "_" [k, "decode"])) := by
  have habort := decodeKeys_missing_decoder env [("node", .str "gateway")]
    (Json.obj (pre ++ (k, v) :: post)) pre k v post hpre hk
  simp [decode_packet, h5, hw, hz, hrec, hrep, hjson, json_obj_isObjLike, json_obj_entries,
    PacketHeader.name, habort, Except.map]

/-- Decode environment used by the C3 witness: the key A resolves to an
echoing decoder, the key B resolves to nothing. -/
def envUnknownB : DecodeEnv :=
  ⟨fun _ => .ok (Json.obj [("A", .null), ("B", .null)]),
   fun n => if n = "A_decode" then some (fun d _ _ => .ok d) else none⟩

/-- Witness for the C3 theorem: with decoder A resolvable and B unknown,
the batch A then B aborts with KeyError on B even though A decodes. -/
theorem zia_json_unknown_protocol_aborts_witness :
    decode_packet envUnknownB "ZIA--x" = .error (.keyError "B_decode") := by
  have h := zia_json_unknown_protocol_aborts envUnknownB "ZIA--x"
    [("A", Json.null)] "B" Json.null []
    (by decide) (by decide) (by decide) (by decide) (by decide) (by decide)
    (by
      intro kv hkv
      have hkv2 : kv = ("A", Json.null) := List.mem_singleton.mp hkv
      subst hkv2
      exact ⟨[("node", Json.str "gateway")], by decide⟩)
    (by rfl)
  simpa using h

/-- Claim C4 (confirmed): for a recognized ZIA33 frame whose
frame.header.protocolMeaning names a resolvable decoder that returns a
packet, decode_packet yields exactly that one packet and no error log; if
the decoder name resolves to nothing, decode_packet yields zero packets,
exactly one error level diagnostic, and does not raise. -/
theorem zia33_decode_isolation (env : DecodeEnv) (packet : String) (parsed message header : Json)
    (protoName : String)
    (h5 : pyTake packet 5 = "ZIA33")
    (hjson : env.jsonLoads (pyReplace packet "ZIA33" "") = .ok parsed)
    (hframe : jGetItem parsed "frame" = .ok message)
    (hheader : jGetItem message "header" = .ok header)
    (hproto : jGetItem header "protocolMeaning" = .ok (.str protoName)) :
    (∀ d p, env.globals (pyJoin "_" [protoName, "decode"]) = some d →
      d [("node", .str "gateway"), ("protocol", .str protoName)] message "gateway" = .ok p →
      decode_packet env packet = .ok ([p], [])) ∧
    (env.globals (pyJoin "_" [protoName, "decode"]) = none →
      decode_packet env packet = .ok ([], ["Protocol not implemented"])) := by
  constructor
  · intro d p hglob happ
    simp [decode_packet, h5, hjson, hframe, hheader, hproto, callDecoder, hglob,
      dictInsert, PacketHeader.name, happ]
  · intro hglob
    simp [decode_packet, h5, hjson, hframe, hheader, hproto, callDecoder, hglob,
      dictInsert, PacketHeader.name]

/-- The parsed frame used by the C4 witness. -/
def zia33Frame : Json :=
  Json.obj [("frame", Json.obj [("header", Json.obj [("protocolMeaning", Json.str "BLYSS")])])]

/-- Decode environment with a resolvable BLYSS decoder. -/
def envBlyss : DecodeEnv :=
  ⟨fun _ => .ok zia33Frame,
   fun n => if n = "BLYSS_decode" then some (fun d _ _ => .ok d) else none⟩

/-- Decode environment with no decoders at all. -/
def envNoDecoders : DecodeEnv := ⟨fun _ => .ok zia33Frame, fun _ => none⟩

/-- Witness for the C4 theorem: the same ZIA33 frame yields one packet
with the BLYSS decoder present and zero packets plus one diagnostic with
it absent. -/
theorem zia33_decode_isolation_witness :
    decode_packet envBlyss "ZIA33x" =
      .ok ([[("node", .str "gateway"), ("protocol", .str "BLYSS")]], []) ∧
    decode_packet envNoDecoders "ZIA33x" = .ok ([], ["Protocol not implemented"]) :=
  ⟨(zia33_decode_isolation envBlyss "ZIA33x" zia33Frame
      (Json.obj [("header", Json.obj [("protocolMeaning", Json.str "BLYSS")])])
      (Json.obj [("protocolMeaning", Json.str "BLYSS")]) "BLYSS"
      (by decide) (by decide) (by decide) (by decide) (by decide)).1
      (fun d _ _ => .ok d) [("node", .str "gateway"), ("protocol", .str "BLYSS")]
      (by rfl) (by decide),
   (zia33_decode_isolation envNoDecoders "ZIA33x" zia33Frame
      (Json.obj [("header", Json.obj [("protocolMeaning", Json.str "BLYSS")])])
      (Json.obj [("protocolMeaning", Json.str "BLYSS")]) "BLYSS"
      (by decide) (by decide) (by decide) (by decide) (by decide)).2 (by rfl)⟩

/-- Claim C9 (confirmed): event_callback takes the event type from the
platform field, defaulting to unknown; drops events whose type has no
consumer table; forwards events whose identity is bound to a truthy
consumer; and for an unbound identity with a registered factory function
it registers the identity, persists the descriptor into the config entry
devices, and invokes the factory asynchronously with the event. -/
theorem event_callback_routing :
    (∀ (e : Packet) (v : Json), e.lookup EVENT_KEY_PLATFORM = some v →
      identify_event_type e = v) ∧
    (∀ e : Packet, e.lookup EVENT_KEY_PLATFORM = none →
      identify_event_type e = .str "unknown") ∧
    (∀ (st : RouterState) (e : Packet),
      st.entityLookup.lookup (identify_event_type e) = none →
      event_callback st e = (.dropUnhandled (identify_event_type e), st)) ∧
    (∀ (st : RouterState) (e : Packet) (tm : List (Json × Json)) (c : Json),
      st.entityLookup.lookup (identify_event_type e) = some tm →
      tm.lookup ((e.lookup EVENT_KEY_ID).getD .null) = some c →
      pyTruthy c = true →
      event_callback st e = (.forward c e, st)) ∧
    (∀ (st : RouterState) (e : Packet) (tm : List (Json × Json)) (f : String),
      st.entityLookup.lookup (identify_event_type e) = some tm →
      tm.lookup ((e.lookup EVENT_KEY_ID).getD .null) = none →
      st.deviceRegister.lookup (identify_event_type e) = some (.fn f) →
      event_callback st e =
        (.invokeFactory f e,
         { st with
            entityLookup :=
              dictInsert st.entityLookup (identify_event_type e)
                (dictInsert tm ((e.lookup EVENT_KEY_ID).getD .null) (Json.obj e)),
            configDevices :=
              dictInsert st.configDevices ((e.lookup EVENT_KEY_ID).getD .null)
                (Json.obj e) })) := by
  refine ⟨?_, ?_, ?_, ?_, ?_⟩
  · intro e v hv
    simp [identify_event_type, hv]
  · intro e hv
    simp [identify_event_type, hv]
  · intro st e hl
    simp [event_callback, hl]
  · intro st e tm c hl hid htr
    simp [event_callback, hl, hid, htr]
  · intro st e tm f hl hid hreg
    simp [event_callback, hl, hid, hreg, pyTruthy]

/-- A concrete router state for the C9 witness: the command type has one
bound identity and a registered factory. -/
def wState : RouterState :=
  ⟨[(Json.str "command", [(Json.str "dev1", Json.str "sensor.dev1")])],
   [(Json.str "command", RegVal.fn "factory")], []⟩

/-- Witness for the C9 theorem: an event of an unregistered type is
dropped, a bound identity is forwarded, an unbound identity triggers the
factory with registration and persistence. -/
theorem event_callback_routing_witness :
    event_callback wState [("platform", .str "cover")] =
      (.dropUnhandled (.str "cover"), wState) ∧
    event_callback wState [("platform", .str "command"), ("id", .str "dev1")] =
      (.forward (.str "sensor.dev1") [("platform", .str "command"), ("id", .str "dev1")],
       wState) ∧
    event_callback wState [("platform", .str "command"), ("id", .str "dev2")] =
      (.invokeFactory "factory" [("platform", .str "command"), ("id", .str "dev2")],
       { wState with
          entityLookup :=
            dictInsert wState.entityLookup (identify_event_type
              [("platform", .str "command"), ("id", .str "dev2")])
              (dictInsert [(Json.str "dev1", Json.str "sensor.dev1")]
                ((List.lookup EVENT_KEY_ID
                  [("platform", Json.str "command"), ("id", Json.str "dev2")]).getD .null)
                (Json.obj [("platform", .str "command"), ("id", .str "dev2")])),
          configDevices :=
            dictInsert wState.configDevices
              ((List.lookup EVENT_KEY_ID
                [("platform", Json.str "command"), ("id", Json.str "dev2")]).getD .null)
              (Json.obj [("platform", .str "command"), ("id", .str "dev2")]) }) :=
  ⟨event_callback_routing.2.2.1 wState [("platform", .str "cover")] (by decide),
   event_callback_routing.2.2.2.1 wState [("platform", .str "command"), ("id", .str "dev1")]
     [(Json.str "dev1", Json.str "sensor.dev1")] (.str "sensor.dev1")
     (by decide) (by decide) (by decide),
   event_callback_routing.2.2.2.2 wState [("platform", .str "command"), ("id", .str "dev2")]
     [(Json.str "dev1", Json.str "sensor.dev1")] "factory"
     (by decide) (by decide) (by decide)⟩

/-- Claim C8, counterexample: when the open failure handler and the
external disconnect callback both report the same failure, the combined
trace contains two availability false broadcasts and two scheduled
connection attempts, not one. -/
theorem double_report_two_attempts :
    countAvailFalse (connect_open_failure ⟨10⟩ ++ reconnect false) = 2 ∧
    countAttempts (connect_open_failure ⟨10⟩ ++ reconnect false) = 2 := by
  decide

/-- Claim C8 (amended): the open failure handler of connect emits exactly
one availability false broadcast and schedules exactly one reconnection,
whose delay is the fixed configured interval; the external disconnect
callback likewise emits one broadcast and creates one immediate connect
task when Home Assistant is not stopping; but duplicate reports of the
same failure are not deduplicated, so both handlers together produce two
broadcasts and two attempts. -/
theorem reconnect_effects_spec (cfg : ConnConfig) :
    countAvailFalse (connect_open_failure cfg) = 1 ∧
    countAttempts (connect_open_failure cfg) = 1 ∧
    ConnEffect.callLater cfg.reconnect_interval "reconnect" ∈ connect_open_failure cfg ∧
    countAvailFalse (reconnect false) = 1 ∧
    countAttempts (reconnect false) = 1 ∧
    countAvailFalse (connect_open_failure cfg ++ reconnect false) = 2 ∧
    countAttempts (connect_open_failure cfg ++ reconnect false) = 2 := by
  refine ⟨rfl, rfl, ?_, rfl, rfl, ?_, ?_⟩
  · simp [connect_open_failure]
  · simp [countAvailFalse, connect_open_failure, reconnect]
  · simp [countAttempts, connect_open_failure, reconnect]

/-- Witness for the C8 theorem at the interval 30. -/
theorem reconnect_effects_spec_witness :
    countAvailFalse (connect_open_failure ⟨30⟩) = 1 ∧
    countAttempts (connect_open_failure ⟨30⟩) = 1 ∧
    ConnEffect.callLater 30 "reconnect" ∈ connect_open_failure ⟨30⟩ ∧
    countAvailFalse (reconnect false) = 1 ∧
    countAttempts (reconnect false) = 1 ∧
    countAvailFalse (connect_open_failure ⟨30⟩ ++ reconnect false) = 2 ∧
    countAttempts (connect_open_failure ⟨30⟩ ++ reconnect false) = 2 :=
  reconnect_effects_spec ⟨30⟩

end RFPlayer
